import Mathlib

/-!
Verification of the vibe-check backend (src/src/App.tsx, server half).

The backend is an Express server whose analysis pipeline is:
URL normalization, headless-browser screenshot capture, vision-model
critique, and defensive sanitization of the model's JSON output.

We shallow-embed the JavaScript fragments that pipeline is made of:
JavaScript runtime values become the inductive `JValue` (numbers are
modelled as rationals plus NaN and the two infinities), fallible
platform calls (browser, fetch, JSON.parse, URL) become explicit
oracle parameters or Option-returning functions, and the request
handler becomes a pure function that also returns the trace of
pipeline stages it invoked.
-/

namespace VibeCheck

/-- A JavaScript number: NaN, the two infinities, or a finite value
(modelled as a rational; `Number.isFinite` holds exactly on `finite`). -/
inductive JsNum where
  | nan
  | posInf
  | negInf
  | finite (q : ℚ)

/-- A JavaScript runtime value, as far as the backend inspects values:
undefined, null, booleans, numbers, strings, arrays and plain objects. -/
inductive JValue where
  | undefined
  | null
  | bool (b : Bool)
  | num (n : JsNum)
  | str (s : String)
  | arr (elems : List JValue)
  | obj (fields : List (String × JValue))

/-- JavaScript `Math.round` on a finite number: round half toward
positive infinity, i.e. the floor of `q + 1/2`. -/
def jsRound (q : ℚ) : ℤ := ⌊q + 1/2⌋

/-- Embeds `clampScore` (App.tsx lines 350-354):
`if (!Number.isFinite(value)) return 1;`
`const rounded = Math.round(value);`
`return Math.min(10, Math.max(1, rounded));`
The argument is a `JValue` because at runtime the sanitizer feeds it
`raw.scores?.palette` etc., which may be undefined or any JSON value;
`Number.isFinite` is false on every non-number and on NaN/±Infinity. -/
def clampScore : JValue → ℤ
  | .num (.finite q) => min 10 (max 1 (jsRound q))
  | _ => 1

/-- JavaScript property access `v?.k` / `v.k` for a string key as the
backend uses it: null/undefined yield undefined (the backend only
dereferences them behind `?.`); on an object the field is looked up
(undefined when absent); access with the keys the backend uses on any
other primitive or an array yields undefined. -/
def optChainGet : JValue → String → JValue
  | .obj fields, k => ((fields.lookup k).getD .undefined)
  | _, _ => .undefined

/-- JavaScript indexed access `v?.[i]`: null/undefined short-circuit,
an array yields its element (undefined out of range), an object looks
the decimal index up as a key, a string yields its one-character
substring, everything else yields undefined. -/
def optChainIndex (v : JValue) (i : Nat) : JValue :=
  match v with
  | .arr xs => xs.getD i .undefined
  | .obj fields => ((fields.lookup (toString i)).getD .undefined)
  | .str s => if i < s.length then .str (String.singleton (s.toList.getD i ' ')) else .undefined
  | _ => .undefined

/-- JavaScript truthiness, `Boolean(v)`: false for undefined, null,
false, NaN, 0 and the empty string; true otherwise. -/
def jsTruthy : JValue → Bool
  | .undefined => false
  | .null => false
  | .bool b => b
  | .num .nan => false
  | .num (.finite q) => q ≠ 0
  | .num _ => true
  | .str s => s ≠ ""
  | .arr _ => true
  | .obj _ => true

/-- The nullish-coalescing operator `v ?? d`: null and undefined fall
back to the default, every other value is kept. -/
def nullishDefault (v : JValue) (d : JValue) : JValue :=
  match v with
  | .undefined => d
  | .null => d
  | _ => v

/-- The `AnalysisResult` record (App.tsx lines 329-348) as it exists at
runtime: the TypeScript cast after `JSON.parse` is unchecked, so every
field may hold any JavaScript value. An absent field is represented by
`undefined`. -/
structure AnalysisResult where
  verdict : JValue
  scores : JValue
  aiSlopDetected : JValue
  aiSlopSignals : JValue
  categoryRoasts : JValue
  overallAssessment : JValue

/-- Embeds `sanitizeResult` (App.tsx lines 356-369): spread the raw
record, replace `scores` with the five clamped categories read via
optional chaining, coerce `aiSlopDetected` with `Boolean`, and replace
`aiSlopSignals` with `raw.aiSlopSignals.slice(0, 6)` when it is an
array and `[]` otherwise. The slice keeps the entries themselves,
without converting them to strings. -/
def sanitizeResult (raw : AnalysisResult) : AnalysisResult :=
  { raw with
    scores := .obj [
      ("palette", .num (.finite (clampScore (optChainGet raw.scores "palette")))),
      ("typography", .num (.finite (clampScore (optChainGet raw.scores "typography")))),
      ("layout", .num (.finite (clampScore (optChainGet raw.scores "layout")))),
      ("originality", .num (.finite (clampScore (optChainGet raw.scores "originality")))),
      ("overallVibe", .num (.finite (clampScore (optChainGet raw.scores "overallVibe"))))],
    aiSlopDetected := .bool (jsTruthy raw.aiSlopDetected),
    aiSlopSignals := match raw.aiSlopSignals with
      | .arr xs => .arr (xs.take 6)
      | _ => .arr [] }

/-- Index of the first opening brace of a character list, if any. -/
def firstBrace : List Char → Option Nat
  | [] => none
  | c :: cs => if c = '{' then some 0 else (firstBrace cs).map (· + 1)

/-- Index of the last closing brace of a character list, if any. -/
def lastClose : List Char → Option Nat
  | [] => none
  | c :: cs =>
    match lastClose cs with
    | some j => some (j + 1)
    | none => if c = '}' then some 0 else none

/-- Embeds the regular-expression match of `safeParseJson` (App.tsx
line 401), `content.match(/\x7b[\s\S]*\x7d/)`: the greedy pattern
matches from the first opening brace to the last closing brace of the
text, and fails when no opening brace is followed by a closing one. -/
def jsonObjectMatch (s : List Char) : Option (List Char) :=
  match firstBrace s, lastClose s with
  | some i, some j => if i < j then some ((s.drop i).take (j + 1 - i)) else none
  | _, _ => none

/-- Reads the five named fields out of a parsed JSON value, embedding
the unchecked TypeScript cast `JSON.parse(match[0]) as AnalysisResult`
together with the field accesses `sanitizeResult` and the spread
perform on it; a missing field reads as undefined. -/
def toAnalysisResult (v : JValue) : AnalysisResult :=
  ⟨optChainGet v "verdict", optChainGet v "scores", optChainGet v "aiSlopDetected",
    optChainGet v "aiSlopSignals", optChainGet v "categoryRoasts",
    optChainGet v "overallAssessment"⟩

/-- The sanitized analysis serialized back into a JSON value for the
HTTP response body. -/
def analysisToJValue (a : AnalysisResult) : JValue :=
  .obj [("verdict", a.verdict), ("scores", a.scores),
    ("aiSlopDetected", a.aiSlopDetected), ("aiSlopSignals", a.aiSlopSignals),
    ("categoryRoasts", a.categoryRoasts), ("overallAssessment", a.overallAssessment)]

/-- Modelled from the spec: the message of the `SyntaxError` that the
platform `JSON.parse` throws on unparseable input (the exact text is a
platform detail; the spec only requires that a parse failure signals
`MalformedCritique`, surfaced as the error's message). -/
def jsonParseFailMsg : String := "Unexpected token in JSON"

/-- Embeds `safeParseJson` (App.tsx lines 400-405): extract the greedy
brace match, throwing `Model did not return JSON` when there is none;
parse the extracted substring (the platform `JSON.parse` is passed in
as the `parse` oracle, parse failure throwing a `SyntaxError`); and
sanitize the parsed value. Thrown errors are modelled as `Except`. -/
def safeParseJson (parse : String → Option JValue) (content : String) :
    Except String AnalysisResult :=
  match jsonObjectMatch content.toList with
  | none => .error "Model did not return JSON"
  | some sub =>
    match parse sub.asString with
    | none => .error jsonParseFailMsg
    | some v => .ok (sanitizeResult (toAnalysisResult v))

/-- True when the string begins with `http`, embedding the test
`url.startsWith('http')` (App.tsx line 420). -/
def hasHttpScheme (url : String) : Bool :=
  url.toList.take 4 = "http".toList

/-- Embeds the normalization attempt of App.tsx line 420: the string
handed to the URL constructor, with `https://` prepended exactly when
the input does not begin with `http`. -/
def withSchemeAttempt (url : String) : String :=
  if hasHttpScheme url then url else "https://" ++ url

/-- The parts of an absolute URL the model keeps. -/
structure UrlParts where
  scheme : String
  host : String
  path : String

/-- Characters the modelled URL parser accepts inside a host name. -/
def isHostChar (c : Char) : Bool :=
  c.isAlphanum || c = '.' || c = '-'

/-- Modelled from the spec: the platform `new URL(...)` constructor
(WHATWG), which is not part of the repository. The spec requires an
absolute URL, parseable, with a scheme; this model accepts
`http://` or `https://`, then a non-empty host of alphanumeric, dot
and dash characters, then an optional `/`-started path, and rejects
everything else (ports, userinfo, IDNs and percent-encoding are
outside what the verified claims exercise). -/
def parseUrl (s : String) : Option UrlParts :=
  let cs := s.toList
  let p : Option (String × List Char) :=
    if cs.take 8 = "https://".toList then some ("https", cs.drop 8)
    else if cs.take 7 = "http://".toList then some ("http", cs.drop 7)
    else none
  match p with
  | none => none
  | some (sch, rest) =>
    let hostCs := rest.takeWhile (fun c => c ≠ '/')
    let pathCs := rest.drop hostCs.length
    if !hostCs.isEmpty && hostCs.all isHostChar then
      some ⟨sch, hostCs.asString, pathCs.asString⟩
    else none

/-- Modelled from the spec: the standard URL serialization
(`normalized.toString()`): scheme, `://`, host, and the path, where an
empty path of an http(s) URL serializes as `/`. -/
def serializeUrl (u : UrlParts) : String :=
  u.scheme ++ "://" ++ u.host ++ (if u.path = "" then "/" else u.path)

/-- The whole normalization step of the handler (App.tsx lines
418-423): build the attempt string, construct a URL from it, and
serialize; `none` models the thrown `TypeError` that the handler turns
into the 400 `Invalid URL` response. -/
def normalizeUrl (url : String) : Option String :=
  (parseUrl (withSchemeAttempt url)).map serializeUrl

/-- True when the credential is missing, embedding the falsiness test
`!OPENROUTER_API_KEY` (App.tsx line 425): `process.env` yields either
undefined (`none`) or a string, and the empty string is falsy too. -/
def keyMissing : Option String → Bool
  | none => true
  | some s => s = ""

/-- The events the capture model records, one per acquisition or
release of a browser resource and one per capture phase. -/
inductive CapEvent where
  | launched
  | pageCreated
  | navigated
  | scrolled
  | screenshotTaken
  | pageClosed
  | browserClosed
deriving DecidableEq

/-- Outcomes of the fallible browser calls `captureScreenshot` makes,
in program order: `chromium.launch`, `browser.newPage`, `page.goto`,
the scroll sweep (`page.evaluate`/`waitForTimeout`), and
`page.screenshot` (whose success carries the PNG, modelled as its
base64 string). -/
structure CaptureOracle where
  launch : Except String Unit
  newPage : Except String Unit
  goto : Except String Unit
  scroll : Except String Unit
  screenshot : Except String String

/-- Embeds `captureScreenshot` (App.tsx lines 371-398). The launch and
`newPage` calls happen before the `try` block is entered; only the
navigation, scroll and screenshot steps run inside `try`, and the
`finally` clause closes the page and then the browser on every exit of
that block. The function returns the outcome together with the ordered
trace of events that executed. -/
def captureScreenshot (o : CaptureOracle) : Except String String × List CapEvent :=
  match o.launch with
  | .error e => (.error e, [])
  | .ok _ =>
    match o.newPage with
    | .error e => (.error e, [.launched])
    | .ok _ =>
      let tryBody : Except String String × List CapEvent :=
        match o.goto with
        | .error e => (.error e, [])
        | .ok _ =>
          match o.scroll with
          | .error e => (.error e, [.navigated])
          | .ok _ =>
            match o.screenshot with
            | .error e => (.error e, [.navigated, .scrolled])
            | .ok png => (.ok png, [.navigated, .scrolled, .screenshotTaken])
      (tryBody.1, [.launched, .pageCreated] ++ tryBody.2 ++ [.pageClosed, .browserClosed])

/-- The two expensive pipeline stages the analyze handler can invoke,
recorded as a trace: the screenshot capture (which is what launches a
browser) and the critique-backend fetch. -/
inductive StageEvent where
  | capture
  | critiqueFetch
deriving DecidableEq

/-- Outcome of the critique-backend `fetch`: a network-level rejection
(the thrown error's message), a non-success HTTP response (its status
and body text, read by the handler for its error message), or a
success whose JSON body parsed to `data`. -/
inductive BackendResult where
  | netError (msg : String)
  | httpError (status : Nat) (body : String)
  | success (data : JValue)

/-- The external collaborators of the analyze handler: the screenshot
capture stage (returning the PNG as base64), the critique backend, and
the platform `JSON.parse` used by `safeParseJson`. -/
structure Oracles where
  capture : String → Except String String
  backend : BackendResult
  parseJson : String → Option JValue

/-- An HTTP response: status code and JSON body. -/
structure HttpResponse where
  status : Nat
  body : JValue

/-- An error response with a flat single-key body. -/
def errResp (status : Nat) (msg : String) : HttpResponse :=
  ⟨status, .obj [("error", .str msg)]⟩

/-- The model text extraction `data.choices?.[0]?.message?.content`
(App.tsx line 471). -/
def modelChoiceText (data : JValue) : JValue :=
  optChainGet (optChainGet (optChainIndex (optChainGet data "choices") 0) "message") "content"

/-- Modelled from the spec: the `TypeError` message the runtime raises
when `safeParseJson` calls `.match` on a non-string model text (only
reachable when the backend puts a non-string, non-nullish value in
`message.content`; the handler's catch turns it into a 500 like any
other error). -/
def matchTypeErrMsg : String := "content.match is not a function"

/-- Embeds the `POST /api/analyze` handler (App.tsx lines 411-484), in
source order: require a non-empty string `url` field (JavaScript's
`!url || typeof url !== 'string'` rejects exactly the non-strings and
the empty string); normalize it, 400 on failure; 500 when the
credential is missing; then capture, fetch the critique, extract the
model text with the empty-string fallback, parse and sanitize it, and
answer 200 with the full body. Every error thrown inside the `try` is
caught and becomes a 500 with the error's message. The second
component is the trace of expensive stages that ran. -/
def analyzeHandler (body : JValue) (apiKey : Option String) (o : Oracles) :
    HttpResponse × List StageEvent :=
  match optChainGet body "url" with
  | .str u =>
    if u = "" then (errResp 400 "url is required", [])
    else
      match normalizeUrl u with
      | none => (errResp 400 "Invalid URL", [])
      | some nurl =>
        if keyMissing apiKey then
          (errResp 500 "OPENROUTER_API_KEY is missing in environment", [])
        else
          match o.capture nurl with
          | .error msg => (errResp 500 msg, [.capture])
          | .ok base64 =>
            match o.backend with
            | .netError msg => (errResp 500 msg, [.capture, .critiqueFetch])
            | .httpError status bodyText =>
              (errResp 500 ("OpenRouter error " ++ toString status ++ ": " ++ bodyText),
                [.capture, .critiqueFetch])
            | .success data =>
              match nullishDefault (modelChoiceText data) (.str "") with
              | .str text =>
                match safeParseJson o.parseJson text with
                | .error msg => (errResp 500 msg, [.capture, .critiqueFetch])
                | .ok analysis =>
                  (⟨200, .obj [("url", .str nurl),
                      ("screenshotBase64", .str ("data:image/png;base64," ++ base64)),
                      ("analysis", analysisToJValue analysis)]⟩,
                    [.capture, .critiqueFetch])
              | _ => (errResp 500 matchTypeErrMsg, [.capture, .critiqueFetch])
  | _ => (errResp 400 "url is required", [])

/-- An input whose `aiSlopSignals` entry is the number 5, not a string. -/
def slopNumRaw : AnalysisResult :=
  ⟨.undefined, .undefined, .undefined, .arr [.num (.finite 5)], .undefined, .undefined⟩

/-- An input with seven signal entries. -/
def slopSevenRaw : AnalysisResult :=
  ⟨.undefined, .undefined, .undefined,
    .arr [.str "a", .str "b", .str "c", .str "d", .str "e", .str "f", .str "g"],
    .undefined, .undefined⟩

/-- An input whose `aiSlopSignals` field is a plain string, not an array. -/
def slopStrRaw : AnalysisResult :=
  ⟨.undefined, .undefined, .undefined, .str "signals", .undefined, .undefined⟩

/-- A capture oracle whose `newPage` call fails after a successful
launch. -/
def capNewPageFails : CaptureOracle :=
  ⟨.ok (), .error "newPage failed", .ok (), .ok (), .ok "PNG"⟩

/-- A capture oracle whose launch fails. -/
def capLaunchFails : CaptureOracle :=
  ⟨.error "launch failed", .ok (), .ok (), .ok (), .ok "PNG"⟩

/-- A capture oracle on which every browser call succeeds. -/
def capAllOk : CaptureOracle :=
  ⟨.ok (), .ok (), .ok (), .ok (), .ok "PNG"⟩

/-- A request body with a normalizable URL. -/
def okBody : JValue := .obj [("url", .str "example.com")]

/-- A request body whose URL cannot be parsed as an absolute URL. -/
def badUrlBody : JValue := .obj [("url", .str "not a url")]

/-- A request body with an empty URL string. -/
def emptyUrlBody : JValue := .obj [("url", .str "")]

/-- A request body without a `url` field. -/
def noUrlBody : JValue := .obj []

/-- Oracles for exercising the handler: capture succeeds, the backend
answers 200 with a body that has no usable choice text, and the JSON
parse oracle rejects everything (it is never consulted on these runs). -/
def stubOracles : Oracles :=
  ⟨fun _ => .ok "IMG", .success (.obj []), fun _ => none⟩

/-- The critique-backend body whose single choice carries plain text
with no braces in it. -/
def nonJsonData : JValue :=
  .obj [("choices", .arr [
    .obj [("message", .obj [("content", .str "plain text, no json here")])]])]

/-- Oracles whose backend answers 200 with non-JSON model text. -/
def nonJsonOracles : Oracles :=
  ⟨fun _ => .ok "IMG", .success nonJsonData, fun _ => none⟩

/-- Oracles whose screenshot capture stage fails. -/
def capFailOracles : Oracles :=
  ⟨fun _ => .error "nav timeout", .netError "unused", fun _ => none⟩

/-- Oracles whose critique backend answers a non-success status. -/
def backendErrOracles : Oracles :=
  ⟨fun _ => .ok "IMG", .httpError 429 "rate limited", fun _ => none⟩

/-- Rounding an integer returns that integer. -/
theorem jsRound_intCast (n : ℤ) : jsRound (n : ℚ) = n := by
  rw [jsRound, Int.floor_int_add]
  norm_num [Int.floor_eq_iff]

/-- Every clamped score lies in the interval from 1 to 10. -/
theorem clampScore_mem (v : JValue) : 1 ≤ clampScore v ∧ clampScore v ≤ 10 := by
  cases v with
  | num n =>
    cases n with
    | finite q => simp only [clampScore]; omega
    | nan => simp [clampScore]
    | posInf => simp [clampScore]
    | negInf => simp [clampScore]
  | undefined => simp [clampScore]
  | null => simp [clampScore]
  | bool b => simp [clampScore]
  | str s => simp [clampScore]
  | arr xs => simp [clampScore]
  | obj fs => simp [clampScore]

/-- Clamping a finite number that is already an integer between 1 and
10 returns it unchanged. -/
theorem clampScore_intCast (n : ℤ) (h1 : 1 ≤ n) (h2 : n ≤ 10) :
    clampScore (.num (.finite (n : ℚ))) = n := by
  simp only [clampScore, jsRound_intCast]
  omega

/-- Clamping is idempotent on the embedded result of a previous clamp. -/
theorem clampScore_clamp (v : JValue) :
    clampScore (.num (.finite ((clampScore v : ℤ) : ℚ))) = clampScore v :=
  clampScore_intCast _ (clampScore_mem v).1 (clampScore_mem v).2

/-- Reading `palette` back from a sanitized scores object. -/
theorem optChainGet_palette (v1 v2 v3 v4 v5 : JValue) :
    optChainGet (.obj [("palette", v1), ("typography", v2), ("layout", v3),
      ("originality", v4), ("overallVibe", v5)]) "palette" = v1 := rfl

/-- Reading `typography` back from a sanitized scores object. -/
theorem optChainGet_typography (v1 v2 v3 v4 v5 : JValue) :
    optChainGet (.obj [("palette", v1), ("typography", v2), ("layout", v3),
      ("originality", v4), ("overallVibe", v5)]) "typography" = v2 := rfl

/-- Reading `layout` back from a sanitized scores object. -/
theorem optChainGet_layout (v1 v2 v3 v4 v5 : JValue) :
    optChainGet (.obj [("palette", v1), ("typography", v2), ("layout", v3),
      ("originality", v4), ("overallVibe", v5)]) "layout" = v3 := rfl

/-- Reading `originality` back from a sanitized scores object. -/
theorem optChainGet_originality (v1 v2 v3 v4 v5 : JValue) :
    optChainGet (.obj [("palette", v1), ("typography", v2), ("layout", v3),
      ("originality", v4), ("overallVibe", v5)]) "originality" = v4 := rfl

/-- Reading `overallVibe` back from a sanitized scores object. -/
theorem optChainGet_overallVibe (v1 v2 v3 v4 v5 : JValue) :
    optChainGet (.obj [("palette", v1), ("typography", v2), ("layout", v3),
      ("originality", v4), ("overallVibe", v5)]) "overallVibe" = v5 := rfl

/-- C1: `clampScore` always yields an integer (its codomain is ℤ) in
the interval from 1 to 10; any non-finite or non-numeric input (NaN,
an absent value, a string) yields 1; a finite input is rounded half-up
and then clamped; the quoted values hold (0 clamps to 1, 11 clamps to
10, 7.6 clamps to 8); and `sanitizeResult` applies `clampScore` to
each of the five fixed score categories. -/
theorem claim_C1_clampScore_bounds_and_sanitizer :
    (∀ v : JValue, 1 ≤ clampScore v ∧ clampScore v ≤ 10) ∧
    clampScore (.num .nan) = 1 ∧
    clampScore .undefined = 1 ∧
    clampScore .null = 1 ∧
    clampScore (.num .posInf) = 1 ∧
    clampScore (.num .negInf) = 1 ∧
    (∀ b : Bool, clampScore (.bool b) = 1) ∧
    (∀ s : String, clampScore (.str s) = 1) ∧
    (∀ xs : List JValue, clampScore (.arr xs) = 1) ∧
    (∀ fs : List (String × JValue), clampScore (.obj fs) = 1) ∧
    (∀ q : ℚ, clampScore (.num (.finite q)) = min 10 (max 1 ⌊q + 1/2⌋)) ∧
    clampScore (.num (.finite 0)) = 1 ∧
    clampScore (.num (.finite 11)) = 10 ∧
    clampScore (.num (.finite (76/10))) = 8 ∧
    (∀ raw : AnalysisResult, (sanitizeResult raw).scores = .obj [
      ("palette", .num (.finite (clampScore (optChainGet raw.scores "palette")))),
      ("typography", .num (.finite (clampScore (optChainGet raw.scores "typography")))),
      ("layout", .num (.finite (clampScore (optChainGet raw.scores "layout")))),
      ("originality", .num (.finite (clampScore (optChainGet raw.scores "originality")))),
      ("overallVibe", .num (.finite (clampScore (optChainGet raw.scores "overallVibe"))))]) := by
  refine ⟨clampScore_mem, rfl, rfl, rfl, rfl, rfl, fun b => rfl, fun s => rfl,
    fun xs => rfl, fun fs => rfl, fun q => rfl, ?_, ?_, ?_, fun raw => rfl⟩
  · simp only [clampScore]
    norm_num [jsRound, Int.floor_eq_iff]
  · simp only [clampScore]
    norm_num [jsRound, Int.floor_eq_iff]
  · simp only [clampScore]
    norm_num [jsRound, Int.floor_eq_iff]

/-- C8: sanitizing an already-sanitized result yields the same result. -/
theorem claim_C8_sanitizeResult_idempotent (raw : AnalysisResult) :
    sanitizeResult (sanitizeResult raw) = sanitizeResult raw := by
  obtain ⟨a, b, c, d, e, f⟩ := raw
  cases d <;>
    simp [sanitizeResult, optChainGet_palette, optChainGet_typography, optChainGet_layout,
      optChainGet_originality, optChainGet_overallVibe, clampScore_clamp, jsTruthy,
      List.take_take]

/-- C2 counterexample: the claim says the sanitized `aiSlopSignals`
list consists of the string coercions of the input entries, but the
code keeps the entries as they are (`slice(0, 6)` performs no
coercion): on an input whose single entry is the number 5, the output
entry is still the number 5, so the output is not a list of strings
(in particular it is not the list holding the string "5"). -/
theorem claim_C2_counterexample :
    (sanitizeResult slopNumRaw).aiSlopSignals = .arr [.num (.finite 5)] ∧
    ¬ (∃ ss : List String, (sanitizeResult slopNumRaw).aiSlopSignals =
        .arr (ss.map JValue.str)) := by
  refine ⟨rfl, ?_⟩
  rintro ⟨ss, h⟩
  rw [show (sanitizeResult slopNumRaw).aiSlopSignals = .arr [.num (.finite 5)] from rfl] at h
  cases ss with
  | nil => simp at h
  | cons x xs => simp at h

/-- C2 amended: the sanitized `aiSlopSignals` is the list of the first
at most six entries of the input, unchanged and in their original
order (the code performs no string coercion); if the field is absent
or not an array it becomes the empty list; the output length never
exceeds 6. -/
theorem claim_C2_amended :
    (∀ (raw : AnalysisResult) (xs : List JValue), raw.aiSlopSignals = .arr xs →
      (sanitizeResult raw).aiSlopSignals = .arr (xs.take 6) ∧ (xs.take 6).length ≤ 6) ∧
    (∀ raw : AnalysisResult, (∀ xs : List JValue, raw.aiSlopSignals ≠ .arr xs) →
      (sanitizeResult raw).aiSlopSignals = .arr []) := by
  constructor
  · rintro ⟨a, b, c, d, e, f⟩ xs h
    cases h
    exact ⟨rfl, by simp⟩
  · rintro ⟨a, b, c, d, e, f⟩ h
    cases d with
    | arr xs => exact absurd rfl (h xs)
    | undefined => rfl
    | null => rfl
    | bool b0 => rfl
    | num n => rfl
    | str s => rfl
    | obj fs => rfl

/-- Witness for the amended C2: a seven-entry list is truncated to its
first six entries, and a non-array field becomes the empty list. -/
theorem claim_C2_amended_witness :
    (sanitizeResult slopSevenRaw).aiSlopSignals =
      .arr [.str "a", .str "b", .str "c", .str "d", .str "e", .str "f"] ∧
    (sanitizeResult slopStrRaw).aiSlopSignals = .arr [] := by
  constructor
  · exact (claim_C2_amended.1 slopSevenRaw
      [.str "a", .str "b", .str "c", .str "d", .str "e", .str "f", .str "g"] rfl).1
  · exact claim_C2_amended.2 slopStrRaw (fun xs h => by cases h)

/-- Where `firstBrace` answers, there is an opening brace, and it is
the first one. -/
theorem firstBrace_some_spec (s : List Char) (i : Nat) (h : firstBrace s = some i) :
    i < s.length ∧ s.getD i ' ' = '{' ∧ ∀ k, k < i → s.getD k ' ' ≠ '{' := by
  induction s generalizing i with
  | nil => simp [firstBrace] at h
  | cons c cs ih =>
    by_cases hc : c = '{'
    · simp only [firstBrace, if_pos hc, Option.some.injEq] at h
      subst h
      refine ⟨by simp, by simpa using hc, ?_⟩
      intro k hk
      exact absurd hk (Nat.not_lt_zero k)
    · cases hcs : firstBrace cs with
      | none => simp [firstBrace, if_neg hc, hcs] at h
      | some i0 =>
        simp only [firstBrace, if_neg hc, hcs, Option.map_some', Option.some.injEq] at h
        subst h
        obtain ⟨h1, h2, h3⟩ := ih i0 hcs
        refine ⟨by simpa using h1, by simpa using h2, ?_⟩
        intro k hk
        cases k with
        | zero => simpa using hc
        | succ k0 => simpa using h3 k0 (by omega)

/-- Where `firstBrace` fails, the list has no opening brace. -/
theorem firstBrace_none_spec (s : List Char) (h : firstBrace s = none) :
    ∀ c ∈ s, c ≠ '{' := by
  induction s with
  | nil => simp
  | cons c cs ih =>
    by_cases hc : c = '{'
    · simp [firstBrace, if_pos hc] at h
    · cases hcs : firstBrace cs with
      | some i0 => simp [firstBrace, if_neg hc, hcs] at h
      | none =>
        intro x hx
        rcases List.mem_cons.mp hx with h1 | h2
        · subst h1; exact hc
        · exact ih hcs x h2

/-- Where `lastClose` fails, the list has no closing brace. -/
theorem lastClose_none_spec (s : List Char) (h : lastClose s = none) :
    ∀ c ∈ s, c ≠ '}' := by
  induction s with
  | nil => simp
  | cons c cs ih =>
    cases hcs : lastClose cs with
    | some j0 => simp [lastClose, hcs] at h
    | none =>
      by_cases hc : c = '}'
      · simp [lastClose, hcs, if_pos hc] at h
      · intro x hx
        rcases List.mem_cons.mp hx with h1 | h2
        · subst h1; exact hc
        · exact ih hcs x h2

/-- Where `lastClose` answers, there is a closing brace, and it is the
last one. -/
theorem lastClose_some_spec (s : List Char) (j : Nat) (h : lastClose s = some j) :
    j < s.length ∧ s.getD j ' ' = '}' ∧
      ∀ k, j < k → k < s.length → s.getD k ' ' ≠ '}' := by
  induction s generalizing j with
  | nil => simp [lastClose] at h
  | cons c cs ih =>
    cases hcs : lastClose cs with
    | some j0 =>
      simp only [lastClose, hcs, Option.some.injEq] at h
      subst h
      obtain ⟨h1, h2, h3⟩ := ih j0 hcs
      refine ⟨by simpa using h1, by simpa using h2, ?_⟩
      intro k hk1 hk2
      cases k with
      | zero => omega
      | succ k0 => simpa using h3 k0 (by omega) (by simpa using hk2)
    | none =>
      by_cases hc : c = '}'
      · simp only [lastClose, hcs, if_pos hc, Option.some.injEq] at h
        subst h
        refine ⟨by simp, by simpa using hc, ?_⟩
        intro k hk1 hk2
        cases k with
        | zero => omega
        | succ k0 =>
          have hlen : k0 < cs.length := by simpa using hk2
          rw [List.getD_cons_succ, List.getD_eq_getElem cs ' ' hlen]
          exact lastClose_none_spec cs hcs _ (List.getElem_mem hlen)
      · simp [lastClose, hcs, if_neg hc] at h

/-- A successful greedy match runs from the first opening brace to the
last closing brace. -/
theorem jsonObjectMatch_some_spec (s t : List Char) (h : jsonObjectMatch s = some t) :
    ∃ i j, i < j ∧ j < s.length ∧ s.getD i ' ' = '{' ∧ s.getD j ' ' = '}' ∧
      (∀ k, k < i → s.getD k ' ' ≠ '{') ∧
      (∀ k, j < k → k < s.length → s.getD k ' ' ≠ '}') ∧
      t = (s.drop i).take (j + 1 - i) := by
  cases hf : firstBrace s with
  | none => simp [jsonObjectMatch, hf] at h
  | some i =>
    cases hl : lastClose s with
    | none => simp [jsonObjectMatch, hf, hl] at h
    | some j =>
      by_cases hij : i < j
      · simp only [jsonObjectMatch, hf, hl, if_pos hij, Option.some.injEq] at h
        obtain ⟨hi1, hi2, hi3⟩ := firstBrace_some_spec s i hf
        obtain ⟨hj1, hj2, hj3⟩ := lastClose_some_spec s j hl
        exact ⟨i, j, hij, hj1, hi2, hj2, hi3, hj3, h.symm⟩
      · simp [jsonObjectMatch, hf, hl, if_neg hij] at h

/-- A failed greedy match means no opening brace is followed by a
closing brace. -/
theorem jsonObjectMatch_none_spec (s : List Char) (h : jsonObjectMatch s = none) :
    ∀ i j, i < j → j < s.length → ¬(s.getD i ' ' = '{' ∧ s.getD j ' ' = '}') := by
  rintro i j hij hj ⟨hbi, hbj⟩
  have hi : i < s.length := by omega
  cases hf : firstBrace s with
  | none =>
    rw [List.getD_eq_getElem s ' ' hi] at hbi
    exact firstBrace_none_spec s hf _ (List.getElem_mem hi) hbi
  | some i0 =>
    cases hl : lastClose s with
    | none =>
      rw [List.getD_eq_getElem s ' ' hj] at hbj
      exact lastClose_none_spec s hl _ (List.getElem_mem hj) hbj
    | some j0 =>
      by_cases hij0 : i0 < j0
      · simp [jsonObjectMatch, hf, hl, if_pos hij0] at h
      · obtain ⟨_, _, hmin⟩ := firstBrace_some_spec s i0 hf
        obtain ⟨_, _, hmax⟩ := lastClose_some_spec s j0 hl
        have hi0le : i0 ≤ i := by
          by_contra hlt
          exact hmin i (by omega) hbi
        have hjle : j ≤ j0 := by
          by_contra hlt
          exact hmax j (by omega) hj hbj
        omega

/-- When the text has no brace-delimited candidate, `safeParseJson`
throws the fixed message. -/
theorem safeParseJson_no_candidate (parse : String → Option JValue) (content : String)
    (h : jsonObjectMatch content.toList = none) :
    safeParseJson parse content = .error "Model did not return JSON" := by
  unfold safeParseJson
  rw [h]

/-- C3: `safeParseJson` extracts exactly the substring running from
the first opening brace to the last closing brace (when the text has
an opening brace followed by a closing one) and hands it to the JSON
parser; when the text has no such substring it throws the message
`Model did not return JSON`, and the analyze handler surfaces that as
a 500 with that message in the flat error body; when the extracted
substring fails to parse it throws the parse error instead. -/
theorem claim_C3_safeParseJson_extraction :
    (∀ s t : List Char, jsonObjectMatch s = some t →
      ∃ i j, i < j ∧ j < s.length ∧ s.getD i ' ' = '{' ∧ s.getD j ' ' = '}' ∧
        (∀ k, k < i → s.getD k ' ' ≠ '{') ∧
        (∀ k, j < k → k < s.length → s.getD k ' ' ≠ '}') ∧
        t = (s.drop i).take (j + 1 - i)) ∧
    (∀ s : List Char, jsonObjectMatch s = none →
      ∀ i j, i < j → j < s.length → ¬(s.getD i ' ' = '{' ∧ s.getD j ' ' = '}')) ∧
    (∀ (parse : String → Option JValue) (content : String),
      jsonObjectMatch content.toList = none →
      safeParseJson parse content = .error "Model did not return JSON") ∧
    (∀ (parse : String → Option JValue) (content : String) (t : List Char),
      jsonObjectMatch content.toList = some t → parse t.asString = none →
      safeParseJson parse content = .error jsonParseFailMsg) ∧
    (∀ (parse : String → Option JValue) (content : String) (t : List Char) (v : JValue),
      jsonObjectMatch content.toList = some t → parse t.asString = some v →
      safeParseJson parse content = .ok (sanitizeResult (toAnalysisResult v))) ∧
    (∀ (body : JValue) (key : Option String) (o : Oracles) (u nurl b64 text : String)
      (data : JValue),
      optChainGet body "url" = .str u → u ≠ "" → normalizeUrl u = some nurl →
      keyMissing key = false → o.capture nurl = .ok b64 → o.backend = .success data →
      nullishDefault (modelChoiceText data) (.str "") = .str text →
      jsonObjectMatch text.toList = none →
      analyzeHandler body key o =
        (errResp 500 "Model did not return JSON", [.capture, .critiqueFetch])) := by
  refine ⟨jsonObjectMatch_some_spec, jsonObjectMatch_none_spec, ?_, ?_, ?_, ?_⟩
  · intro parse content h
    unfold safeParseJson
    rw [h]
  · intro parse content t h hp
    unfold safeParseJson
    rw [h]
    simp [hp]
  · intro parse content t v h hp
    unfold safeParseJson
    rw [h]
    simp [hp]
  · intro body key o u nurl b64 text data hu hne hn hk hcap hb htext hJ
    simp only [analyzeHandler, hu, hne, hn, hk, hcap, hb, htext,
      safeParseJson_no_candidate o.parseJson text hJ, if_neg, Bool.false_eq_true,
      if_false, reduceIte]

/-- Witness for C3: the parse oracle is never consulted on brace-free
text, and a full handler run whose mocked backend answers with plain
non-JSON text yields the 500 response with the fixed message. -/
theorem claim_C3_witness :
    safeParseJson (fun _ => none) "no json in sight" = .error "Model did not return JSON" ∧
    analyzeHandler okBody (some "sk-test") nonJsonOracles =
      (errResp 500 "Model did not return JSON", [.capture, .critiqueFetch]) := by
  constructor
  · exact claim_C3_safeParseJson_extraction.2.2.1 (fun _ => none) "no json in sight" rfl
  · exact claim_C3_safeParseJson_extraction.2.2.2.2.2 okBody (some "sk-test") nonJsonOracles
      "example.com" "https://example.com/" "IMG" "plain text, no json here" nonJsonData
      rfl (by decide) rfl rfl rfl rfl rfl rfl

/-- C4: on a request with a valid, normalizable URL but a missing
credential, the handler answers 500 with the fixed configuration
message and an empty stage trace: the capture stage (the only stage
that launches a browser) is never invoked, whatever the oracles would
have done, and the answer does not depend on the capture or backend
oracles at all. The hypotheses place the run after URL validation, so
the credential check sits between validation and capture. -/
theorem claim_C4_credential_checked_before_capture :
    ∀ (body : JValue) (key : Option String) (o : Oracles) (u nurl : String),
      optChainGet body "url" = .str u → u ≠ "" → normalizeUrl u = some nurl →
      keyMissing key = true →
      analyzeHandler body key o =
        (errResp 500 "OPENROUTER_API_KEY is missing in environment", []) := by
  intro body key o u nurl hu hne hn hk
  simp only [analyzeHandler, hu, hne, hn, hk, reduceIte]

/-- Witness for C4: with the credential unset, the stage trace of a
full run is empty — no browser work happened. -/
theorem claim_C4_witness :
    analyzeHandler okBody none stubOracles =
      (errResp 500 "OPENROUTER_API_KEY is missing in environment", []) :=
  claim_C4_credential_checked_before_capture okBody none stubOracles
    "example.com" "https://example.com/" rfl (by decide) rfl rfl

/-- C5 counterexample: the claim says page and browser are closed on
every exit path, including a failure during page creation; but launch
and `newPage` run before the `try`/`finally`, so when `newPage`
throws, the error propagates with the browser left open: the trace
records the launch and neither close event. -/
theorem claim_C5_counterexample :
    (captureScreenshot capNewPageFails).1 = .error "newPage failed" ∧
    (captureScreenshot capNewPageFails).2 = [.launched] ∧
    CapEvent.browserClosed ∉ (captureScreenshot capNewPageFails).2 ∧
    CapEvent.pageClosed ∉ (captureScreenshot capNewPageFails).2 := by
  exact ⟨rfl, rfl, by decide, by decide⟩

/-- C5 amended: teardown is guaranteed only from the `try` block on:
once launch and page creation have both succeeded, every exit path —
navigation, scrolling or screenshot failure as much as success —
closes the page and then the browser; when launch itself fails
nothing was acquired; but a `newPage` failure after a successful
launch propagates without closing the browser (the leak shown in the
counterexample). -/
theorem claim_C5_amended :
    (∀ (o : CaptureOracle) (e : String), o.launch = .error e →
      captureScreenshot o = (.error e, [])) ∧
    (∀ (o : CaptureOracle) (e : String), o.launch = .ok () → o.newPage = .error e →
      captureScreenshot o = (.error e, [.launched])) ∧
    (∀ o : CaptureOracle, o.launch = .ok () → o.newPage = .ok () →
      ∃ evs : List CapEvent, (captureScreenshot o).2 =
        [.launched, .pageCreated] ++ evs ++ [.pageClosed, .browserClosed]) := by
  refine ⟨?_, ?_, ?_⟩
  · intro o e h
    unfold captureScreenshot
    rw [h]
  · intro o e h1 h2
    unfold captureScreenshot
    rw [h1, h2]
  · intro o h1 h2
    unfold captureScreenshot
    rw [h1, h2]
    exact ⟨_, rfl⟩

/-- Witness for the amended C5: a failed launch acquires nothing, and
a successful acquisition always ends in the two close events. -/
theorem claim_C5_amended_witness :
    captureScreenshot capLaunchFails = (.error "launch failed", []) ∧
    (∃ evs : List CapEvent, (captureScreenshot capAllOk).2 =
      [.launched, .pageCreated] ++ evs ++ [.pageClosed, .browserClosed]) :=
  ⟨claim_C5_amended.1 capLaunchFails "launch failed" rfl,
    claim_C5_amended.2.2 capAllOk rfl rfl⟩

/-- C6: the normalizer prepends `https://` exactly when the input does
not begin with `http`; `example.com` normalizes to
`https://example.com/`; `http://x.com` keeps its `http` scheme; and a
construction failure makes the handler answer 400 `Invalid URL`. -/
theorem claim_C6_url_normalizer :
    (∀ s : String, hasHttpScheme s = false → withSchemeAttempt s = "https://" ++ s) ∧
    (∀ s : String, hasHttpScheme s = true → withSchemeAttempt s = s) ∧
    normalizeUrl "example.com" = some "https://example.com/" ∧
    normalizeUrl "http://x.com" = some "http://x.com/" ∧
    ((parseUrl (withSchemeAttempt "http://x.com")).map UrlParts.scheme = some "http") ∧
    (∀ (body : JValue) (key : Option String) (o : Oracles) (u : String),
      optChainGet body "url" = .str u → u ≠ "" → normalizeUrl u = none →
      analyzeHandler body key o = (errResp 400 "Invalid URL", [])) := by
  refine ⟨?_, ?_, rfl, rfl, rfl, ?_⟩
  · intro s h
    simp [withSchemeAttempt, h]
  · intro s h
    simp [withSchemeAttempt, h]
  · intro body key o u hu hne hn
    simp only [analyzeHandler, hu, hne, hn, reduceIte]

/-- Witness for C6: the two quoted example inputs, and a handler run
on an unparseable URL ending in the 400 response. -/
theorem claim_C6_witness :
    withSchemeAttempt "example.com" = "https://" ++ "example.com" ∧
    withSchemeAttempt "http://x.com" = "http://x.com" ∧
    analyzeHandler badUrlBody none stubOracles = (errResp 400 "Invalid URL", []) :=
  ⟨claim_C6_url_normalizer.1 "example.com" rfl,
    claim_C6_url_normalizer.2.1 "http://x.com" rfl,
    claim_C6_url_normalizer.2.2.2.2.2 badUrlBody none stubOracles "not a url"
      rfl (by decide) rfl⟩

/-- C7: a capture failure, a backend network failure and a non-success
backend status each abort the request with a 500 whose flat body
carries the underlying message (for backend errors the upstream status
and body); and on every run whatsoever the response is either a 200
carrying both the screenshot and the analysis, or a 400/500 carrying
only an error message — never a partial result. -/
theorem claim_C7_failures_flat_and_whole_response :
    (∀ (body : JValue) (key : Option String) (o : Oracles) (u nurl msg : String),
      optChainGet body "url" = .str u → u ≠ "" → normalizeUrl u = some nurl →
      keyMissing key = false → o.capture nurl = .error msg →
      analyzeHandler body key o = (errResp 500 msg, [.capture])) ∧
    (∀ (body : JValue) (key : Option String) (o : Oracles) (u nurl b64 : String)
      (status : Nat) (bodyText : String),
      optChainGet body "url" = .str u → u ≠ "" → normalizeUrl u = some nurl →
      keyMissing key = false → o.capture nurl = .ok b64 →
      o.backend = .httpError status bodyText →
      analyzeHandler body key o =
        (errResp 500 ("OpenRouter error " ++ toString status ++ ": " ++ bodyText),
          [.capture, .critiqueFetch])) ∧
    (∀ (body : JValue) (key : Option String) (o : Oracles) (u nurl b64 msg : String),
      optChainGet body "url" = .str u → u ≠ "" → normalizeUrl u = some nurl →
      keyMissing key = false → o.capture nurl = .ok b64 → o.backend = .netError msg →
      analyzeHandler body key o = (errResp 500 msg, [.capture, .critiqueFetch])) ∧
    (∀ (body : JValue) (key : Option String) (o : Oracles),
      ((analyzeHandler body key o).1.status = 200 ∧
        ∃ nurl b64 a, (analyzeHandler body key o).1.body = .obj [
          ("url", .str nurl),
          ("screenshotBase64", .str ("data:image/png;base64," ++ b64)),
          ("analysis", analysisToJValue a)]) ∨
      (((analyzeHandler body key o).1.status = 400 ∨
          (analyzeHandler body key o).1.status = 500) ∧
        ∃ msg, (analyzeHandler body key o).1.body = .obj [("error", .str msg)])) := by
  refine ⟨?_, ?_, ?_, ?_⟩
  · intro body key o u nurl msg hu hne hn hk hcap
    simp only [analyzeHandler, hu, hne, hn, hk, hcap, Bool.false_eq_true, reduceIte]
  · intro body key o u nurl b64 status bodyText hu hne hn hk hcap hb
    simp only [analyzeHandler, hu, hne, hn, hk, hcap, hb, Bool.false_eq_true, reduceIte]
  · intro body key o u nurl b64 msg hu hne hn hk hcap hb
    simp only [analyzeHandler, hu, hne, hn, hk, hcap, hb, Bool.false_eq_true, reduceIte]
  · intro body key o
    cases hu : optChainGet body "url" with
    | str u =>
      by_cases hne : u = ""
      · rw [show analyzeHandler body key o = (errResp 400 "url is required", []) by
          simp only [analyzeHandler, hu, hne, reduceIte]]
        exact Or.inr ⟨Or.inl rfl, "url is required", rfl⟩
      · cases hn : normalizeUrl u with
        | none =>
          rw [show analyzeHandler body key o = (errResp 400 "Invalid URL", []) by
            simp only [analyzeHandler, hu, hne, hn, reduceIte]]
          exact Or.inr ⟨Or.inl rfl, "Invalid URL", rfl⟩
        | some nurl =>
          cases hk : keyMissing key with
          | true =>
            rw [show analyzeHandler body key o =
                (errResp 500 "OPENROUTER_API_KEY is missing in environment", []) by
              simp only [analyzeHandler, hu, hne, hn, hk, reduceIte]]
            exact Or.inr ⟨Or.inr rfl, "OPENROUTER_API_KEY is missing in environment", rfl⟩
          | false =>
            cases hcap : o.capture nurl with
            | error msg =>
              rw [show analyzeHandler body key o = (errResp 500 msg, [.capture]) by
                simp only [analyzeHandler, hu, hne, hn, hk, hcap,
                  Bool.false_eq_true, reduceIte]]
              exact Or.inr ⟨Or.inr rfl, msg, rfl⟩
            | ok b64 =>
              cases hb : o.backend with
              | netError msg =>
                rw [show analyzeHandler body key o =
                    (errResp 500 msg, [.capture, .critiqueFetch]) by
                  simp only [analyzeHandler, hu, hne, hn, hk, hcap, hb,
                    Bool.false_eq_true, reduceIte]]
                exact Or.inr ⟨Or.inr rfl, msg, rfl⟩
              | httpError status bodyText =>
                rw [show analyzeHandler body key o =
                    (errResp 500 ("OpenRouter error " ++ toString status ++ ": " ++ bodyText),
                      [.capture, .critiqueFetch]) by
                  simp only [analyzeHandler, hu, hne, hn, hk, hcap, hb,
                    Bool.false_eq_true, reduceIte]]
                exact Or.inr ⟨Or.inr rfl,
                  "OpenRouter error " ++ toString status ++ ": " ++ bodyText, rfl⟩
              | success data =>
                cases htv : nullishDefault (modelChoiceText data) (.str "") with
                | str text =>
                  cases hsp : safeParseJson o.parseJson text with
                  | error msg =>
                    rw [show analyzeHandler body key o =
                        (errResp 500 msg, [.capture, .critiqueFetch]) by
                      simp only [analyzeHandler, hu, hne, hn, hk, hcap, hb, htv, hsp,
                        Bool.false_eq_true, reduceIte]]
                    exact Or.inr ⟨Or.inr rfl, msg, rfl⟩
                  | ok analysis =>
                    rw [show analyzeHandler body key o =
                        (⟨200, .obj [("url", .str nurl),
                          ("screenshotBase64", .str ("data:image/png;base64," ++ b64)),
                          ("analysis", analysisToJValue analysis)]⟩,
                          [.capture, .critiqueFetch]) by
                      simp only [analyzeHandler, hu, hne, hn, hk, hcap, hb, htv, hsp,
                        Bool.false_eq_true, reduceIte]]
                    exact Or.inl ⟨rfl, nurl, b64, analysis, rfl⟩
                | undefined =>
                  rw [show analyzeHandler body key o =
                      (errResp 500 matchTypeErrMsg, [.capture, .critiqueFetch]) by
                    simp only [analyzeHandler, hu, hne, hn, hk, hcap, hb, htv,
                      Bool.false_eq_true, reduceIte]]
                  exact Or.inr ⟨Or.inr rfl, matchTypeErrMsg, rfl⟩
                | null =>
                  rw [show analyzeHandler body key o =
                      (errResp 500 matchTypeErrMsg, [.capture, .critiqueFetch]) by
                    simp only [analyzeHandler, hu, hne, hn, hk, hcap, hb, htv,
                      Bool.false_eq_true, reduceIte]]
                  exact Or.inr ⟨Or.inr rfl, matchTypeErrMsg, rfl⟩
                | bool b0 =>
                  rw [show analyzeHandler body key o =
                      (errResp 500 matchTypeErrMsg, [.capture, .critiqueFetch]) by
                    simp only [analyzeHandler, hu, hne, hn, hk, hcap, hb, htv,
                      Bool.false_eq_true, reduceIte]]
                  exact Or.inr ⟨Or.inr rfl, matchTypeErrMsg, rfl⟩
                | num n0 =>
                  rw [show analyzeHandler body key o =
                      (errResp 500 matchTypeErrMsg, [.capture, .critiqueFetch]) by
                    simp only [analyzeHandler, hu, hne, hn, hk, hcap, hb, htv,
                      Bool.false_eq_true, reduceIte]]
                  exact Or.inr ⟨Or.inr rfl, matchTypeErrMsg, rfl⟩
                | arr xs =>
                  rw [show analyzeHandler body key o =
                      (errResp 500 matchTypeErrMsg, [.capture, .critiqueFetch]) by
                    simp only [analyzeHandler, hu, hne, hn, hk, hcap, hb, htv,
                      Bool.false_eq_true, reduceIte]]
                  exact Or.inr ⟨Or.inr rfl, matchTypeErrMsg, rfl⟩
                | obj fs =>
                  rw [show analyzeHandler body key o =
                      (errResp 500 matchTypeErrMsg, [.capture, .critiqueFetch]) by
                    simp only [analyzeHandler, hu, hne, hn, hk, hcap, hb, htv,
                      Bool.false_eq_true, reduceIte]]
                  exact Or.inr ⟨Or.inr rfl, matchTypeErrMsg, rfl⟩
    | undefined =>
      rw [show analyzeHandler body key o = (errResp 400 "url is required", []) by
        simp only [analyzeHandler, hu]]
      exact Or.inr ⟨Or.inl rfl, "url is required", rfl⟩
    | null =>
      rw [show analyzeHandler body key o = (errResp 400 "url is required", []) by
        simp only [analyzeHandler, hu]]
      exact Or.inr ⟨Or.inl rfl, "url is required", rfl⟩
    | bool b0 =>
      rw [show analyzeHandler body key o = (errResp 400 "url is required", []) by
        simp only [analyzeHandler, hu]]
      exact Or.inr ⟨Or.inl rfl, "url is required", rfl⟩
    | num n0 =>
      rw [show analyzeHandler body key o = (errResp 400 "url is required", []) by
        simp only [analyzeHandler, hu]]
      exact Or.inr ⟨Or.inl rfl, "url is required", rfl⟩
    | arr xs =>
      rw [show analyzeHandler body key o = (errResp 400 "url is required", []) by
        simp only [analyzeHandler, hu]]
      exact Or.inr ⟨Or.inl rfl, "url is required", rfl⟩
    | obj fs =>
      rw [show analyzeHandler body key o = (errResp 400 "url is required", []) by
        simp only [analyzeHandler, hu]]
      exact Or.inr ⟨Or.inl rfl, "url is required", rfl⟩

/-- Witness for C7: a navigation failure and a backend 429 each become
a flat 500 with the underlying message. -/
theorem claim_C7_witness :
    analyzeHandler okBody (some "sk-test") capFailOracles =
      (errResp 500 "nav timeout", [.capture]) ∧
    analyzeHandler okBody (some "sk-test") backendErrOracles =
      (errResp 500 ("OpenRouter error " ++ toString 429 ++ ": " ++ "rate limited"),
        [.capture, .critiqueFetch]) :=
  ⟨claim_C7_failures_flat_and_whole_response.1 okBody (some "sk-test") capFailOracles
      "example.com" "https://example.com/" "nav timeout" rfl (by decide) rfl rfl rfl,
    claim_C7_failures_flat_and_whole_response.2.1 okBody (some "sk-test") backendErrOracles
      "example.com" "https://example.com/" "IMG" 429 "rate limited"
      rfl (by decide) rfl rfl rfl rfl⟩

/-- C9: a request whose `url` field is missing, not a string, or the
empty string is answered 400 with `url is required`; the stage trace
is empty and the response does not depend on the credential or on any
oracle, so no normalization, credential check or capture work was
involved. -/
theorem claim_C9_url_required :
    (∀ (body : JValue) (key : Option String) (o : Oracles),
      (∀ s : String, optChainGet body "url" ≠ .str s) →
      analyzeHandler body key o = (errResp 400 "url is required", [])) ∧
    (∀ (body : JValue) (key : Option String) (o : Oracles),
      optChainGet body "url" = .str "" →
      analyzeHandler body key o = (errResp 400 "url is required", [])) := by
  constructor
  · intro body key o h
    unfold analyzeHandler
    cases hu : optChainGet body "url" with
    | str s => exact absurd hu (h s)
    | undefined => rfl
    | null => rfl
    | bool b0 => rfl
    | num n0 => rfl
    | arr xs => rfl
    | obj fs => rfl
  · intro body key o h
    unfold analyzeHandler
    rw [h]
    rfl

/-- Witness for C9: a body without a `url` field and a body with an
empty `url` both get the 400 response, with the credential unset and
stub oracles untouched. -/
theorem claim_C9_witness :
    analyzeHandler noUrlBody none stubOracles = (errResp 400 "url is required", []) ∧
    analyzeHandler emptyUrlBody none stubOracles = (errResp 400 "url is required", []) :=
  ⟨claim_C9_url_required.1 noUrlBody none stubOracles
      (fun s h => by simp [noUrlBody, optChainGet] at h),
    claim_C9_url_required.2 emptyUrlBody none stubOracles rfl⟩

/-- C10: a successful backend response whose JSON body has no
`choices` array, an empty one, or a first choice without message
content makes the optional-chained text extraction yield undefined,
which the nullish fallback turns into the empty string; the handler
then answers 500 with `Model did not return JSON` — a total, defined
response rather than a crash, and not a partial result. -/
theorem claim_C10_missing_choices_tolerated :
    modelChoiceText (.obj []) = .undefined ∧
    modelChoiceText (.obj [("choices", .arr [])]) = .undefined ∧
    modelChoiceText (.obj [("choices", .arr [.obj [("message", .obj [])]])]) = .undefined ∧
    nullishDefault JValue.undefined (.str "") = .str "" ∧
    (∀ (body : JValue) (key : Option String) (o : Oracles) (u nurl b64 : String)
      (data : JValue),
      optChainGet body "url" = .str u → u ≠ "" → normalizeUrl u = some nurl →
      keyMissing key = false → o.capture nurl = .ok b64 → o.backend = .success data →
      (modelChoiceText data = .undefined ∨ modelChoiceText data = .null) →
      analyzeHandler body key o =
        (errResp 500 "Model did not return JSON", [.capture, .critiqueFetch])) := by
  refine ⟨rfl, rfl, rfl, rfl, ?_⟩
  intro body key o u nurl b64 data hu hne hn hk hcap hb htv
  have htext : nullishDefault (modelChoiceText data) (.str "") = .str "" := by
    rcases htv with h | h <;> rw [h] <;> rfl
  simp only [analyzeHandler, hu, hne, hn, hk, hcap, hb, htext,
    safeParseJson_no_candidate o.parseJson "" rfl, Bool.false_eq_true, reduceIte]

/-- Witness for C10: a mocked backend success whose body is the empty
object drives a full run into the 500 with the fixed message. -/
theorem claim_C10_witness :
    analyzeHandler okBody (some "sk-test") stubOracles =
      (errResp 500 "Model did not return JSON", [.capture, .critiqueFetch]) :=
  claim_C10_missing_choices_tolerated.2.2.2.2 okBody (some "sk-test") stubOracles
    "example.com" "https://example.com/" "IMG" (.obj [])
    rfl (by decide) rfl rfl rfl rfl (Or.inl rfl)

end VibeCheck
